import Mathlib

/-!
Verification development for the Jenkinsfile reconstruction engine of the
`mcp-jenkins-intelligence` repository.  The definitions below are a shallow
embedding, translated from `src/services/execution_analysis_service.py`:

* the configuration-XML parser (`parse_config_xml` and its helpers),
* the execution-trace analyzer (`analyze_pipeline_structure`),
* the Jenkinsfile reconstruction engine (`reconstruct_from_execution` and
  its per-stage helpers), and
* the improvement-suggestion generator (`suggest_improvements`).

Python strings are modelled as `String` / `List Char`; the service's
`re.search` / `re.findall` calls use only literal-marker patterns joined by
lazy gaps (`.*?`), for which leftmost-earliest scanning is exact, so they are
modelled by the scanning combinators of this section.  Python `dict` payloads
become structures, exceptions become `Option`, and the `async` I/O boundary of
`reconstruct_jenkinsfile` is modelled by a client record of response functions
together with an explicit effect log.  Rational numbers stand in for Python
floats (the service only divides, multiplies and compares them, which is exact
in every case relevant below); `fmt1` models the `"%.1f"` format with
round-half-to-even, and character classes model the ASCII fragment of
Python's `\w` / `\s`.
-/

namespace JenkinsRecon

/-- Characters of a string (Python strings are scanned character-wise). -/
def chars (s : String) : List Char := s.data

/-- Rebuild a string from characters. -/
def strOf (l : List Char) : String := String.mk l

/-- Whether `pat` is a prefix of `l` (Boolean, character-wise). -/
def isPrefixL : List Char → List Char → Bool
  | [], _ => true
  | _ :: _, [] => false
  | a :: as, b :: bs => a == b && isPrefixL as bs

/-- Whether `l` contains `pat` as a contiguous substring (Python `in`). -/
def containsSub : List Char → List Char → Bool
  | [], pat => pat.isEmpty
  | c :: rest, pat => isPrefixL pat (c :: rest) || containsSub rest pat

/-- `String` wrapper for `containsSub` (Python `pat in s`). -/
def containsS (s pat : String) : Bool := containsSub s.data pat.data

/-- Split `l` at the first occurrence of a non-empty `pat`: returns the part
before it and the part after it, or `none` when `pat` does not occur. -/
def cutAtL (pat : List Char) : List Char → Option (List Char × List Char)
  | [] => none
  | c :: rest =>
    if isPrefixL pat (c :: rest) then some ([], List.drop pat.length (c :: rest))
    else
      match cutAtL pat rest with
      | some (a, b) => some (c :: a, b)
      | none => none

/-- Character-wise lowercasing (ASCII model of Python `str.lower`). -/
def lowerL (l : List Char) : List Char := l.map Char.toLower

/-- Python `str.lower` on strings. -/
def lowerS (s : String) : String := strOf (lowerL s.data)

/-- ASCII whitespace as stripped by Python `str.strip`. -/
def isPySpace (c : Char) : Bool :=
  c == ' ' || c == '\t' || c == '\n' || c == '\r' || c == '\x0b' || c == '\x0c'

/-- Python `str.strip` on character lists. -/
def stripL (l : List Char) : List Char :=
  ((l.dropWhile isPySpace).reverse.dropWhile isPySpace).reverse

/-- Python `str.strip` on strings. -/
def stripS (s : String) : String := strOf (stripL s.data)

/-- Python `s.split("\n")`. -/
def splitOnNL : List Char → List (List Char)
  | [] => [[]]
  | c :: rest =>
    let r := splitOnNL rest
    if c == '\n' then [] :: r
    else
      match r with
      | [] => [[c]]
      | h :: t => (c :: h) :: t

/-- Model of `re.search(open + "(.*?)" + close, s, re.DOTALL)`: the capture of
the leftmost match, i.e. the text between the first occurrence of `openT` and
the first occurrence of `closeT` after it. -/
def searchDA (openT closeT s : List Char) : Option (List Char) :=
  match cutAtL openT s with
  | none => none
  | some (_, t) =>
    match cutAtL closeT t with
    | none => none
    | some (c, _) => some c

/-- Model of `re.search(open + "(.*?)" + close, s)` without `re.DOTALL`: as
`searchDA` but a capture containing a newline fails and the scan resumes at
the next occurrence of `openT`.  `fuel` bounds the number of retries (callers
pass the text length, which suffices since each retry consumes the open
marker). -/
def searchNN (openT closeT : List Char) : Nat → List Char → Option (List Char)
  | 0, _ => none
  | fuel + 1, s =>
    match cutAtL openT s with
    | none => none
    | some (_, t) =>
      match cutAtL closeT t with
      | none => none
      | some (c, _) =>
        if c.contains '\n' then searchNN openT closeT fuel t else some c

/-- Model of `re.findall(open + "(.*?)" + close, s)` without `re.DOTALL`
(used for the `<string>` items of a choice parameter). -/
def findallNN (openT closeT : List Char) : Nat → List Char → List (List Char)
  | 0, _ => []
  | fuel + 1, s =>
    match cutAtL openT s with
    | none => []
    | some (_, t) =>
      match cutAtL closeT t with
      | none => []
      | some (c, rest) =>
        if c.contains '\n' then findallNN openT closeT fuel t
        else c :: findallNN openT closeT fuel rest

/-- One `.*?<open>(.*?)<close>` hop of a multi-component `DOTALL` pattern:
skip to the first `openT`, capture up to the first `closeT` after it, and
return the capture together with the remaining text. -/
def chainCap (openT closeT s : List Char) : Option (List Char × List Char) :=
  match cutAtL openT s with
  | none => none
  | some (_, t) => cutAtL closeT t

/-- Model of `re.findall` for a `DOTALL` pattern
`marker.*?<o1>(.*?)</c1>.*?<o2>(.*?)</c2>` with two captures. -/
def findall2 (marker o1 c1 o2 c2 : List Char) :
    Nat → List Char → List (List Char × List Char)
  | 0, _ => []
  | fuel + 1, s =>
    match cutAtL marker s with
    | none => []
    | some (_, t) =>
      match chainCap o1 c1 t with
      | none => []
      | some (x1, r1) =>
        match chainCap o2 c2 r1 with
        | none => []
        | some (x2, r2) => (x1, x2) :: findall2 marker o1 c1 o2 c2 fuel r2

/-- Model of `re.findall` for a `DOTALL` pattern with three captures. -/
def findall3 (marker o1 c1 o2 c2 o3 c3 : List Char) :
    Nat → List Char → List (List Char × List Char × List Char)
  | 0, _ => []
  | fuel + 1, s =>
    match cutAtL marker s with
    | none => []
    | some (_, t) =>
      match chainCap o1 c1 t with
      | none => []
      | some (x1, r1) =>
        match chainCap o2 c2 r1 with
        | none => []
        | some (x2, r2) =>
          match chainCap o3 c3 r2 with
          | none => []
          | some (x3, r3) =>
            (x1, x2, x3) :: findall3 marker o1 c1 o2 c2 o3 c3 fuel r3

/-- Model of the choice-parameter `re.findall` pattern: a marker, a `name`
capture, a skipped `choices`-class marker, an `<a class="string-array">`
capture and a `description` capture. -/
def findallChoice (marker o1 c1 skip o2 c2 o3 c3 : List Char) :
    Nat → List Char → List (List Char × List Char × List Char)
  | 0, _ => []
  | fuel + 1, s =>
    match cutAtL marker s with
    | none => []
    | some (_, t) =>
      match chainCap o1 c1 t with
      | none => []
      | some (x1, r1) =>
        match cutAtL skip r1 with
        | none => []
        | some (_, r1b) =>
          match chainCap o2 c2 r1b with
          | none => []
          | some (x2, r2) =>
            match chainCap o3 c3 r2 with
            | none => []
            | some (x3, r3) =>
              (x1, x2, x3) :: findallChoice marker o1 c1 skip o2 c2 o3 c3 fuel r3

/-- Single `DOTALL` search returning a `String` capture. -/
def reTagDA (openT closeT : String) (s : List Char) : Option String :=
  (searchDA openT.data closeT.data s).map strOf

/-- Single newline-rejecting search (a `re.search` without `DOTALL`)
returning a `String` capture. -/
def reTag (openT closeT : String) (s : List Char) : Option String :=
  (searchNN openT.data closeT.data (s.length + 1) s).map strOf

/-- Normalized configuration record produced by `parse_config_xml`
(the `config_data` dict of the source, with its default values). -/
structure PipelineConfig where
  agent : String := "any"
  parameters : List String := []
  triggers : List String := []
  options : List String := []
  tools : List String := []
  environment : List String := []
deriving DecidableEq

/-- Parse the dockerfile agent block (`_parse_dockerfile_agent`). -/
def parse_dockerfile_agent (agent_content : String) : String :=
  let c := agent_content.data
  let dockerfile_config : List String :=
    (if containsS agent_content ("true")
        || containsS (lowerS agent_content) ("dockerfile")
     then ["dockerfile true"] else [])
    ++ (match reTag ("<dir>") ("</dir>") c with
        | some v => ["dir \x27" ++ v ++ "\x27"] | none => [])
    ++ (match reTag ("<filename>") ("</filename>") c with
        | some v => ["filename \x27" ++ v ++ "\x27"] | none => [])
    ++ (match reTag ("<additionalBuildArgs>") ("</additionalBuildArgs>") c with
        | some v => ["additionalBuildArgs \x27" ++ v ++ "\x27"] | none => [])
    ++ (match reTag ("<args>") ("</args>") c with
        | some v => ["args \x27" ++ v ++ "\x27"] | none => [])
    ++ (match reTag ("<label>") ("</label>") c with
        | some v => ["label \x27" ++ v ++ "\x27"] | none => [])
  if dockerfile_config = ["dockerfile true"] then "dockerfile true"
  else
    let config_str := String.intercalate (",\n        ") dockerfile_config
    "dockerfile \x7b\n        " ++ config_str ++ "\n    \x7d"

/-- Parse the node agent block (`_parse_node_agent`). -/
def parse_node_agent (agent_content : String) : String :=
  let c := agent_content.data
  let node_config : List String :=
    (match reTag ("<label>") ("</label>") c with
     | some v => ["label \x27" ++ v ++ "\x27"] | none => [])
    ++ (match reTag ("<customWorkspace>") ("</customWorkspace>") c with
        | some v => ["customWorkspace \x27" ++ v ++ "\x27"] | none => [])
  if node_config = [] then "node \x7b /* Node agent config */ \x7d"
  else
    let config_str := String.intercalate (",\n        ") node_config
    "node \x7b\n        " ++ config_str ++ "\n    \x7d"

/-- Parse the agent descriptor (`_parse_agent_config`): an `elif` chain of
substring tests, each falling back to `"any"` when its inner tag search
fails.  The `dockerfile` branch is unreachable (any content containing
`"dockerfile"` also contains `"docker"`) but is kept as in the source. -/
def parse_agent_config (agent_content : String) : String :=
  let c := agent_content.data
  if containsS agent_content ("label") then
    match reTag ("<label>") ("</label>") c with
    | some v => "label(\x27" ++ v ++ "\x27)"
    | none => "any"
  else if containsS agent_content ("docker") then
    match reTag ("<image>") ("</image>") c with
    | some v => "docker(\x27" ++ v ++ "\x27)"
    | none => "any"
  else if containsS agent_content ("dockerfile") then
    parse_dockerfile_agent agent_content
  else if containsS agent_content ("kubernetes") then
    "kubernetes \x7b /* Kubernetes agent config */ \x7d"
  else if containsS agent_content ("node") then
    parse_node_agent agent_content
  else if containsS agent_content ("none") then "none"
  else "any"

/-- The string-parameter extraction of `_extract_parameters_from_xml`, in
document order. -/
def extract_string_params (params_xml : String) : List String :=
  let p := params_xml.data
  (findall3 (chars ("<hudson.model.StringParameterDefinition>"))
      (chars ("<name>")) (chars ("</name>"))
      (chars ("<defaultValue>")) (chars ("</defaultValue>"))
      (chars ("<description>")) (chars ("</description>")) (p.length + 1) p).map
    fun x =>
      "string(name: \x27" ++ strOf x.1 ++ "\x27, defaultValue: \x27" ++ strOf x.2.1
        ++ "\x27, description: \x27" ++ strOf (stripL x.2.2) ++ "\x27)"

/-- The choice-parameter extraction of `_extract_parameters_from_xml`, in
document order. -/
def extract_choice_params (params_xml : String) : List String :=
  let p := params_xml.data
  (findallChoice (chars ("<hudson.model.ChoiceParameterDefinition>"))
      (chars ("<name>")) (chars ("</name>"))
      (chars ("<choices class=\"java.util.Arrays$ArrayList\">"))
      (chars ("<a class=\"string-array\">")) (chars ("</a>"))
      (chars ("<description>")) (chars ("</description>")) (p.length + 1) p).map
    fun x =>
      let choices := findallNN (chars ("<string>")) (chars ("</string>"))
        (x.2.1.length + 1) x.2.1
      let choices_str := String.intercalate ("\x27, \x27") (choices.map strOf)
      "choice(name: \x27" ++ strOf x.1 ++ "\x27, choices: [\x27" ++ choices_str
        ++ "\x27], description: \x27" ++ strOf (stripL x.2.2) ++ "\x27)"

/-- The boolean-parameter extraction of `_extract_parameters_from_xml`, in
document order. -/
def extract_boolean_params (params_xml : String) : List String :=
  let p := params_xml.data
  (findall3 (chars ("<hudson.model.BooleanParameterDefinition>"))
      (chars ("<name>")) (chars ("</name>"))
      (chars ("<defaultValue>")) (chars ("</defaultValue>"))
      (chars ("<description>")) (chars ("</description>")) (p.length + 1) p).map
    fun x =>
      let default_val := if lowerL x.2.1 = chars ("true") then "true" else "false"
      "booleanParam(name: \x27" ++ strOf x.1 ++ "\x27, defaultValue: " ++ default_val
        ++ ", description: \x27" ++ strOf (stripL x.2.2) ++ "\x27)"

/-- The password-parameter extraction of `_extract_parameters_from_xml`, in
document order. -/
def extract_password_params (params_xml : String) : List String :=
  let p := params_xml.data
  (findall2 (chars ("<hudson.model.PasswordParameterDefinition>"))
      (chars ("<name>")) (chars ("</name>"))
      (chars ("<description>")) (chars ("</description>")) (p.length + 1) p).map
    fun x =>
      "password(name: \x27" ++ strOf x.1 ++ "\x27, description: \x27"
        ++ strOf (stripL x.2) ++ "\x27)"

/-- The text-parameter extraction of `_extract_parameters_from_xml`, in
document order. -/
def extract_text_params (params_xml : String) : List String :=
  let p := params_xml.data
  (findall3 (chars ("<hudson.model.TextParameterDefinition>"))
      (chars ("<name>")) (chars ("</name>"))
      (chars ("<defaultValue>")) (chars ("</defaultValue>"))
      (chars ("<description>")) (chars ("</description>")) (p.length + 1) p).map
    fun x =>
      "text(name: \x27" ++ strOf x.1 ++ "\x27, defaultValue: \x27\x27\x27" ++ strOf x.2.1
        ++ "\x27\x27\x27, description: \x27" ++ strOf (stripL x.2.2) ++ "\x27)"

/-- Extract parameters (`_extract_parameters_from_xml`): five independent
`re.findall` extractions concatenated in source order
(string, choice, boolean, password, text). -/
def extract_parameters_from_xml (params_xml : String) : List String :=
  extract_string_params params_xml
  ++ extract_choice_params params_xml
  ++ extract_boolean_params params_xml
  ++ extract_password_params params_xml
  ++ extract_text_params params_xml

/-- Extract triggers (`_extract_triggers_from_xml`): presence-based marker
detection, in source order. -/
def extract_triggers_from_xml (triggers_xml : String) : List String :=
  let t := triggers_xml.data
  (if containsS triggers_xml ("GitHubPushTrigger") then ["githubPush()"] else [])
  ++ (if containsS triggers_xml ("hudson.triggers.SCMTrigger") then
        match reTag ("<spec>") ("</spec>") t with
        | some sp => ["pollSCM(\x27" ++ sp ++ "\x27)"]
        | none => []
      else [])
  ++ (if containsS triggers_xml ("hudson.triggers.TimerTrigger") then
        match reTag ("<spec>") ("</spec>") t with
        | some sp => ["cron(\x27" ++ sp ++ "\x27)"]
        | none => []
      else [])
  ++ (if containsS triggers_xml ("hudson.triggers.UpstreamTrigger") then
        match reTag ("<upstreamProjects>") ("</upstreamProjects>") t with
        | some pr => ["upstream(upstreamProjects: \x27" ++ stripS pr ++ "\x27)"]
        | none => []
      else [])

/-- Extract options (`_extract_options_from_xml`): presence-based marker
detection, in source order. -/
def extract_options_from_xml (options_xml : String) : List String :=
  let t := options_xml.data
  (if containsS options_xml ("hudson.plugins.build__timeout.BuildTimeoutWrapper") then
    match reTag ("<timeoutMinutes>") ("</timeoutMinutes>") t with
    | some m => ["timeout(time: " ++ m ++ ", unit: \x27MINUTES\x27)"]
    | none => []
   else [])
  ++ (if containsS options_xml ("hudson.plugins.retry.RetryBuildStep") then
        match reTag ("<retryCount>") ("</retryCount>") t with
        | some c => ["retry(" ++ c ++ ")"]
        | none => []
      else [])
  ++ (if containsS options_xml ("hudson.plugins.timestamper.TimestamperBuildWrapper")
      then ["timestamps()"] else [])
  ++ (if containsS options_xml ("hudson.plugins.ansicolor.AnsiColorBuildWrapper") then
        match reTag ("<colorMapName>") ("</colorMapName>") t with
        | some c => ["ansiColor(\x27" ++ c ++ "\x27)"]
        | none => ["ansiColor(\x27xterm\x27)"]
      else [])
  ++ (if containsS options_xml ("hudson.plugins.workspacecleaner.WorkspaceCleaner")
      then ["skipDefaultCheckout()"] else [])
  ++ (if containsS options_xml ("hudson.tasks.LogRotator") then
        match reTag ("<numToKeep>") ("</numToKeep>") t with
        | some n => ["buildDiscarder(logRotator(numToKeepStr: \x27" ++ n ++ "\x27))"]
        | none => []
      else [])
  ++ (if containsS options_xml ("hudson.model.BuildDiscarderProperty")
      then ["disableConcurrentBuilds()"] else [])

/-- One `marker.*?<name>(.*?)</name>` `DOTALL` search of
`_extract_tools_from_xml`. -/
def toolName (marker : String) (t : List Char) : Option String :=
  match cutAtL marker.data t with
  | none => none
  | some (_, r) => reTagDA ("<name>") ("</name>") r

/-- Extract tools (`_extract_tools_from_xml`). -/
def extract_tools_from_xml (tools_xml : String) : List String :=
  let t := tools_xml.data
  (match toolName ("<hudson.plugins.maven.MavenInstallation>") t with
   | some n => ["maven \x27" ++ n ++ "\x27"] | none => [])
  ++ (match toolName ("<hudson.model.JDK>") t with
      | some n => ["jdk \x27" ++ n ++ "\x27"] | none => [])
  ++ (match toolName ("<hudson.plugins.gradle.GradleInstallation>") t with
      | some n => ["gradle \x27" ++ n ++ "\x27"] | none => [])
  ++ (match toolName ("<hudson.plugins.nodejs.tools.NodeJSInstallation>") t with
      | some n => ["nodejs \x27" ++ n ++ "\x27"] | none => [])

/-- Extract environment bindings (`_extract_environment_from_xml`). -/
def extract_environment_from_xml (env_xml : String) : List String :=
  let t := env_xml.data
  let fuel := t.length + 1
  let string_envs :=
    findall2 (chars ("<hudson.model.StringParameterValue>"))
      (chars ("<name>")) (chars ("</name>")) (chars ("<value>")) (chars ("</value>"))
      fuel t
  let cred_envs :=
    findall2 (chars ("<hudson.plugins.credentialsbinding.impl.StringBinding>"))
      (chars ("<variable>")) (chars ("</variable>"))
      (chars ("<credentialId>")) (chars ("</credentialId>")) fuel t
  (string_envs.map fun x => strOf x.1 ++ " = \x27" ++ strOf x.2 ++ "\x27")
  ++ (cred_envs.map fun x => strOf x.1 ++ " = credentials(\x27" ++ strOf x.2 ++ "\x27)")

/-- The `<agent>` region of the configuration document (`re.DOTALL`). -/
def agentRegion (config_xml : String) : Option String :=
  reTagDA ("<agent>") ("</agent>") config_xml.data

/-- The `<parameters>` region of the configuration document. -/
def parametersRegion (config_xml : String) : Option String :=
  reTagDA ("<parameters>") ("</parameters>") config_xml.data

/-- The `<triggers>` region of the configuration document. -/
def triggersRegion (config_xml : String) : Option String :=
  reTagDA ("<triggers>") ("</triggers>") config_xml.data

/-- The `<options>` region of the configuration document. -/
def optionsRegion (config_xml : String) : Option String :=
  reTagDA ("<options>") ("</options>") config_xml.data

/-- The `<tools>` region of the configuration document. -/
def toolsRegion (config_xml : String) : Option String :=
  reTagDA ("<tools>") ("</tools>") config_xml.data

/-- The `<envVars>` region of the configuration document. -/
def envVarsRegion (config_xml : String) : Option String :=
  reTagDA ("<envVars>") ("</envVars>") config_xml.data

/-- Parse the configuration document (`_parse_config_xml`): each sub-section
is extracted from its own tag region only, keeping its default when the
region is absent.  The source's regex searches and per-section extractors
are total, so the enclosing `try/except` of the source never fires. -/
def parse_config_xml (config_xml : String) : PipelineConfig :=
  { agent := match agentRegion config_xml with
      | some r => parse_agent_config r
      | none => "any",
    parameters := match parametersRegion config_xml with
      | some r => extract_parameters_from_xml r
      | none => [],
    triggers := match triggersRegion config_xml with
      | some r => extract_triggers_from_xml r
      | none => [],
    options := match optionsRegion config_xml with
      | some r => extract_options_from_xml r
      | none => [],
    tools := match toolsRegion config_xml with
      | some r => extract_tools_from_xml r
      | none => [],
    environment := match envVarsRegion config_xml with
      | some r => extract_environment_from_xml r
      | none => [] }

/-- One stage record of a workflow-API execution trace: the service reads
`stage.get("name", ...)` and `stage.get("durationMillis", 0)`. -/
structure Stage where
  name : String
  durationMillis : Nat
deriving DecidableEq

/-- Execution data of one build (`wfapi/describe` payload): the service reads
`execution_data.get("stages", [])` and `execution_data.get("durationMillis", 0)`. -/
structure ExecutionData where
  stages : List Stage
  durationMillis : Nat
deriving DecidableEq

/-- ASCII model of the regex class `\w`. -/
def isWordChar (c : Char) : Bool := c.isAlphanum || c == '_'

/-- One attempted match of `\w+\s*=\s*[^\s]+` at the text following an
`env.` occurrence; greedy runs are exact here because no backtracking
alternative can succeed (a shortened `\w+` run ends at a word character,
which matches neither `\s` nor `=`). -/
def envMatchAt (l : List Char) : Option (List Char × List Char × List Char) :=
  let w := l.takeWhile isWordChar
  let r1 := l.dropWhile isWordChar
  if w.isEmpty then none
  else
    match r1.dropWhile isPySpace with
    | '=' :: r3 =>
      let r4 := r3.dropWhile isPySpace
      let v := r4.takeWhile (fun c => !(isPySpace c))
      let r5 := r4.dropWhile (fun c => !(isPySpace c))
      if v.isEmpty then none else some (w, v, r5)
    | _ => none

/-- Model of `re.findall(r'env\.(\w+)\s*=\s*([^\s]+)', s)`: scan the
occurrences of `env.` left to right, matching at each and resuming after the
match (or after the failed occurrence). -/
def findEnvAssignments : Nat → List Char → List (List Char × List Char)
  | 0, _ => []
  | fuel + 1, l =>
    match cutAtL (chars ("env.")) l with
    | none => []
    | some (_, t) =>
      match envMatchAt t with
      | some (w, v, rest) => (w, v) :: findEnvAssignments fuel rest
      | none => findEnvAssignments fuel t

/-- Environment bindings inferred from stage names
(`_extract_environment_variables`). -/
def extract_environment_variables (execution_data : ExecutionData) : List String :=
  (execution_data.stages.map fun stage =>
    if containsS stage.name ("env.")
        || containsS (lowerS stage.name) ("environment") then
      (findEnvAssignments (stage.name.data.length + 1) stage.name.data).map
        (fun x => strOf x.1 ++ " = \x27" ++ strOf x.2 ++ "\x27")
    else []).flatten

/-- Stage-level agent (`_extract_stage_agent`): the source always returns
`None`. -/
def extract_stage_agent (_stage : Stage) : Option String := none

/-- Stage-level environment (`_extract_stage_environment`): always empty in
the source. -/
def extract_stage_environment (_stage : Stage) : List String := []

/-- Stage-level tools (`_extract_stage_tools`): always empty in the source. -/
def extract_stage_tools (_stage : Stage) : List String := []

/-- Stage-level post actions (`_extract_stage_post_actions`): always empty in
the source. -/
def extract_stage_post_actions (_stage : Stage) : List String := []

/-- The heuristic `when` condition of a stage (`_extract_when_condition`):
an `elif` chain over case-insensitive substrings of the stage name. -/
def extract_when_condition (stage : Stage) : Option String :=
  let n := lowerS stage.name
  if containsS n ("branch") then some ("branch \x27main\x27")
  else if containsS n ("environment") then
    some ("environment name: \x27DEPLOY_TO\x27, value: \x27production\x27")
  else if containsS n ("not") then some ("not \x7b branch \x27develop\x27 \x7d")
  else none

/-- Illustrative parallel branches (`_extract_parallel_branches`), in the
insertion order of the source's dict. -/
def extract_parallel_branches (stage : Stage) : List (String × List String) :=
  if containsS (lowerS stage.name) ("parallel") then
    [("branch1", ["                    echo \x27Branch 1 execution\x27"]),
     ("branch2", ["                    echo \x27Branch 2 execution\x27"])]
  else []

/-- Synthesized `input` step (`_extract_input_step`), a single string joined
with newlines in the source. -/
def extract_input_step (stage : Stage) : Option String :=
  let n := lowerS stage.name
  if containsS n ("input") || containsS n ("prompt") then
    some (String.intercalate ("\n")
      ["input \x7b",
       "                message \x27Deploy to production?\x27",
       "                ok \x27Deploy\x27",
       "                submitter \x27admin,deployer\x27",
       "                parameters \x7b",
       "                    string(name: \x27VERSION\x27, defaultValue: \x271.0.0\x27, description: \x27Version to deploy\x27)",
       "                \x7d",
       "            \x7d"])
  else none

/-- Synthesized Groovy `script` step (`_extract_script_step`). -/
def extract_script_step (stage : Stage) : Option String :=
  let n := lowerS stage.name
  if containsS n ("script") || containsS n ("groovy") then
    some (String.intercalate ("\n")
      ["script \x7b",
       "                    def browsers = [\x27chrome\x27, \x27firefox\x27]",
       "                    for (int i = 0; i < browsers.size(); ++i) \x7b",
       "                        echo \"Testing the $\x7bbrowsers[i]\x7d browser\"",
       "                    \x7d",
       "                \x7d"])
  else none

/-- Steps body of an ordinary stage (`_extract_stage_steps`): an ordered
decision list over the stage name, first match wins. -/
def extract_stage_steps (stage : Stage) : List String :=
  let n := lowerS stage.name
  match extract_script_step stage with
  | some script_step => ["                " ++ script_step]
  | none =>
    if containsS n ("checkout") || containsS n ("scm") then
      ["                checkout scm"]
    else if containsS n ("init") || containsS n ("setup") then
      ["                script \x7b",
       "                    echo \x27Initializing build environment\x27",
       "                \x7d"]
    else if containsS n ("build") || containsS n ("compile") then
      ["                script \x7b",
       "                    echo \x27Building application\x27",
       "                \x7d"]
    else if containsS n ("test") then
      ["                script \x7b",
       "                    echo \x27Running tests\x27",
       "                \x7d"]
    else if containsS n ("deploy") then
      ["                script \x7b",
       "                    echo \x27Deploying application\x27",
       "                \x7d"]
    else
      ["                script \x7b",
       "                    echo \x27Executing " ++ stage.name ++ "\x27",
       "                \x7d"]

/-- Content of a non-matrix stage (`_reconstruct_stage_content`): optional
agent/environment/tools/when sub-blocks, then the steps body (input step,
parallel block, or ordinary steps), then optional stage-level post. -/
def reconstruct_stage_content (stage : Stage) : List String :=
  (match extract_stage_agent stage with
   | some a => ["            agent " ++ a]
   | none => [])
  ++ (match extract_stage_environment stage with
      | [] => []
      | env => ["            environment \x7b"]
          ++ env.map (fun v => "                " ++ v) ++ ["            \x7d"])
  ++ (match extract_stage_tools stage with
      | [] => []
      | tools => ["            tools \x7b"]
          ++ tools.map (fun v => "                " ++ v) ++ ["            \x7d"])
  ++ (match extract_when_condition stage with
      | some w => ["            when \x7b", "                " ++ w, "            \x7d"]
      | none => [])
  ++ (match extract_input_step stage with
      | some i => ["            steps \x7b", "                " ++ i, "            \x7d"]
      | none =>
        if containsS (lowerS stage.name) ("parallel")
            || containsS stage.name ("Parallel") then
          ["            parallel \x7b"]
          ++ ((extract_parallel_branches stage).map fun b =>
                ["                " ++ b.1 ++ " \x7b"] ++ b.2 ++ ["                \x7d"]).flatten
          ++ ["            \x7d"]
        else
          ["            steps \x7b"] ++ extract_stage_steps stage ++ ["            \x7d"])
  ++ (match extract_stage_post_actions stage with
      | [] => []
      | post => ["            post \x7b"]
          ++ post.map (fun v => "                " ++ v) ++ ["            \x7d"])

/-- Pipeline-level post actions (`_extract_post_actions`): a single
always/cleanup block if any stage name contains `cleanup` or `notify`
(the source breaks after the first match). -/
def extract_post_actions (execution_data : ExecutionData) : List String :=
  if execution_data.stages.any (fun st =>
      containsS (lowerS st.name) ("cleanup") || containsS (lowerS st.name) ("notify")) then
    ["always \x7b",
     "            script \x7b",
     "                echo \x27Cleaning up build artifacts\x27",
     "            \x7d",
     "        \x7d"]
  else []

/-- Matrix-stage classification (`_is_matrix_stage`). -/
def is_matrix_stage (stage : Stage) : Bool :=
  containsS (lowerS stage.name) ("matrix") || containsS (lowerS stage.name) ("parallel")

/-- Matrix agent (`_extract_matrix_agent`): always `None` in the source. -/
def extract_matrix_agent (_stage : Stage) : Option String := none

/-- Matrix `when` (`_extract_matrix_when`): always `None` in the source. -/
def extract_matrix_when (_stage : Stage) : Option String := none

/-- Illustrative matrix axes (`_extract_matrix_axes`). -/
def extract_matrix_axes (_stage : Stage) : List String :=
  ["axis \x7b",
   "                name \x27PLATFORM\x27",
   "                values \x27linux\x27, \x27windows\x27, \x27mac\x27",
   "            \x7d",
   "axis \x7b",
   "                name \x27BROWSER\x27",
   "                values \x27firefox\x27, \x27chrome\x27, \x27safari\x27, \x27edge\x27",
   "            \x7d"]

/-- Illustrative matrix excludes (`_extract_matrix_excludes`). -/
def extract_matrix_excludes (_stage : Stage) : List String :=
  ["exclude \x7b",
   "                axis \x7b",
   "                    name \x27PLATFORM\x27",
   "                    values \x27linux\x27",
   "                \x7d",
   "                axis \x7b",
   "                    name \x27BROWSER\x27",
   "                    values \x27safari\x27",
   "                \x7d",
   "            \x7d"]

/-- Illustrative matrix stages (`_extract_matrix_stages`). -/
def extract_matrix_stages (_stage : Stage) : List String :=
  ["stage(\x27Build\x27) \x7b",
   "                    steps \x7b",
   "                        echo \"Do Build for $\x7bPLATFORM\x7d - $\x7bBROWSER\x7d\"",
   "                    \x7d",
   "                \x7d",
   "stage(\x27Test\x27) \x7b",
   "                    steps \x7b",
   "                        echo \"Do Test for $\x7bPLATFORM\x7d - $\x7bBROWSER\x7d\"",
   "                    \x7d",
   "                \x7d"]

/-- Matrix stage content (`_reconstruct_matrix_stage`). -/
def reconstruct_matrix_stage (stage : Stage) : List String :=
  ["            matrix \x7b"]
  ++ (match extract_matrix_agent stage with
      | some a => ["                agent " ++ a]
      | none => [])
  ++ (match extract_matrix_when stage with
      | some w => ["                when \x7b", "                    " ++ w, "                \x7d"]
      | none => [])
  ++ (match extract_matrix_axes stage with
      | [] => []
      | axes => ["                axes \x7b"]
          ++ axes.map (fun a => "                    " ++ a) ++ ["                \x7d"])
  ++ (match extract_matrix_excludes stage with
      | [] => []
      | ex => ["                excludes \x7b"]
          ++ ex.map (fun a => "                    " ++ a) ++ ["                \x7d"])
  ++ (match extract_matrix_stages stage with
      | [] => []
      | ms => ["                stages \x7b"]
          ++ ms.map (fun m => "                    " ++ m) ++ ["                \x7d"])
  ++ ["            \x7d"]

/-- The per-stage loop body of `_reconstruct_from_execution`: header line,
matrix or ordinary content, closing brace. -/
def reconstruct_stage_block (stage : Stage) : List String :=
  if is_matrix_stage stage then
    ["        stage(\x27" ++ stage.name ++ "\x27) \x7b"]
    ++ reconstruct_matrix_stage stage ++ ["        \x7d"]
  else
    ["        stage(\x27" ++ stage.name ++ "\x27) \x7b"]
    ++ reconstruct_stage_content stage ++ ["        \x7d"]

/-- The `jenkinsfile_lines` list built by `_reconstruct_from_execution`. -/
def reconstruct_from_execution_lines (execution_data : ExecutionData)
    (pipeline_config : PipelineConfig) : List String :=
  ["pipeline \x7b", "    agent " ++ pipeline_config.agent, ""]
  ++ (match pipeline_config.parameters with
      | [] => []
      | params => ["    parameters \x7b"]
          ++ params.map (fun p => "        " ++ p) ++ ["    \x7d", ""])
  ++ (match pipeline_config.triggers with
      | [] => []
      | triggers => ["    triggers \x7b"]
          ++ triggers.map (fun p => "        " ++ p) ++ ["    \x7d", ""])
  ++ (match pipeline_config.options with
      | [] => []
      | options => ["    options \x7b"]
          ++ options.map (fun p => "        " ++ p) ++ ["    \x7d", ""])
  ++ (match pipeline_config.tools with
      | [] => []
      | tools => ["    tools \x7b"]
          ++ tools.map (fun p => "        " ++ p) ++ ["    \x7d", ""])
  ++ (match pipeline_config.environment ++ extract_environment_variables execution_data with
      | [] => []
      | vs => ["    environment \x7b"]
          ++ vs.map (fun v => "        " ++ v) ++ ["    \x7d", ""])
  ++ ["    stages \x7b"]
  ++ (execution_data.stages.map (fun st => reconstruct_stage_block st ++ [""])).flatten
  ++ ["    \x7d", ""]
  ++ (match extract_post_actions execution_data with
      | [] => []
      | posts => ["    post \x7b"]
          ++ posts.map (fun a => "        " ++ a) ++ ["    \x7d", ""])
  ++ ["\x7d"]

/-- Reconstructed Jenkinsfile text (`_reconstruct_from_execution`), the
newline join of `reconstruct_from_execution_lines`. -/
def reconstruct_from_execution (execution_data : ExecutionData)
    (pipeline_config : PipelineConfig) : String :=
  String.intercalate ("\n") (reconstruct_from_execution_lines execution_data pipeline_config)

/-- Floor of a non-negative rational (exact on the inputs used here). -/
def qfloor (q : ℚ) : ℤ := q.num.fdiv (q.den : ℤ)

/-- Round to the nearest integer, ties to even (the rounding of Python's
float formatting). -/
def roundHalfEven (q : ℚ) : ℤ :=
  let f := qfloor q
  let r := q - (f : ℚ)
  if r < 1/2 then f
  else if 1/2 < r then f + 1
  else if f % 2 = 0 then f else f + 1

/-- Model of Python's `f"{x:.1f}"` on a non-negative rational. -/
def fmt1 (q : ℚ) : String :=
  let n := (roundHalfEven (q * 10)).toNat
  toString (n / 10) ++ "." ++ toString (n % 10)

/-- One entry of `analysis["stage_breakdown"]`. -/
structure StageBreakdownEntry where
  name : String
  duration_ms : Nat
  duration_formatted : String
  percentage : ℚ
deriving DecidableEq

/-- The structural-analysis payload built by `_analyze_pipeline_structure`. -/
structure Analysis where
  total_stages : Nat
  total_duration_ms : Nat
  total_duration_formatted : String
  stage_breakdown : List StageBreakdownEntry
  technologies_used : List String
  aws_integration : Bool
  kubernetes_integration : Bool
  docker_usage : Bool
  helm_usage : Bool
  jenkins_library_usage : Bool
deriving DecidableEq

/-- AWS detection of `_analyze_pipeline_structure` on one stage name. -/
def awsP (name : String) : Bool :=
  containsS (lowerS name) ("aws") || containsS (lowerS name) ("ec2")

/-- Kubernetes detection of `_analyze_pipeline_structure` on one stage name. -/
def k8sP (name : String) : Bool :=
  containsS (lowerS name) ("k8s") || containsS (lowerS name) ("kubernetes")

/-- Docker detection of `_analyze_pipeline_structure` on one stage name. -/
def dockerP (name : String) : Bool := containsS (lowerS name) ("docker")

/-- Helm detection of `_analyze_pipeline_structure` on one stage name. -/
def helmP (name : String) : Bool := containsS (lowerS name) ("helm")

/-- Shared-library detection of `_analyze_pipeline_structure` on one stage
name. -/
def libraryP (name : String) : Bool := containsS (lowerS name) ("library")

/-- One `stage_breakdown` entry as appended by `_analyze_pipeline_structure`. -/
def breakdownEntry (total_duration : Nat) (stage : Stage) : StageBreakdownEntry :=
  { name := stage.name,
    duration_ms := stage.durationMillis,
    duration_formatted := fmt1 ((stage.durationMillis : ℚ) / 1000) ++ " seconds",
    percentage :=
      if 0 < total_duration then
        (stage.durationMillis : ℚ) / (total_duration : ℚ) * 100
      else 0 }

/-- The loop body of `_analyze_pipeline_structure`: append one breakdown
entry and OR the technology flags detected in the stage name. -/
def analyzeStep (total_duration : Nat) (a : Analysis) (stage : Stage) : Analysis :=
  { a with
    stage_breakdown := a.stage_breakdown ++ [breakdownEntry total_duration stage],
    aws_integration := a.aws_integration || awsP stage.name,
    kubernetes_integration := a.kubernetes_integration || k8sP stage.name,
    docker_usage := a.docker_usage || dockerP stage.name,
    helm_usage := a.helm_usage || helmP stage.name,
    jenkins_library_usage := a.jenkins_library_usage || libraryP stage.name }

/-- Structural analysis of an execution trace (`_analyze_pipeline_structure`). -/
def analyze_pipeline_structure (execution_data : ExecutionData) : Analysis :=
  let stages := execution_data.stages
  let total_duration := execution_data.durationMillis
  let base : Analysis :=
    { total_stages := stages.length,
      total_duration_ms := total_duration,
      total_duration_formatted := fmt1 ((total_duration : ℚ) / 1000) ++ " seconds",
      stage_breakdown := [],
      technologies_used := [],
      aws_integration := false,
      kubernetes_integration := false,
      docker_usage := false,
      helm_usage := false,
      jenkins_library_usage := false }
  let a := stages.foldl (analyzeStep total_duration) base
  { a with technologies_used :=
      (if a.aws_integration then ["AWS"] else [])
      ++ (if a.kubernetes_integration then ["Kubernetes"] else [])
      ++ (if a.docker_usage then ["Docker"] else [])
      ++ (if a.helm_usage then ["Helm"] else [])
      ++ (if a.jenkins_library_usage then ["Jenkins Shared Libraries"] else []) }

/-- Sum of the `percentage` entries of an analysis. -/
def pctSum (a : Analysis) : ℚ := (a.stage_breakdown.map (fun b => b.percentage)).sum

/-- Sum of the per-stage durations of a trace. -/
def sumDur (e : ExecutionData) : Nat := (e.stages.map (fun s => s.durationMillis)).sum

/-- One improvement suggestion (the dicts appended by
`suggest_improvements`; `example'` models the `example` key). -/
structure Suggestion where
  type : String
  priority : String
  title : String
  description : String
  example' : String
deriving DecidableEq

/-- The `analysis_summary` sub-dict of the suggestion payload. -/
structure AnalysisSummary where
  technologies : List String
  total_duration : String
  stage_count : Nat
deriving DecidableEq

/-- The full payload returned by `suggest_improvements`. -/
structure SuggestResult where
  pipeline_name : String
  total_suggestions : Nat
  suggestions : List Suggestion
  analysis_summary : AnalysisSummary
deriving DecidableEq

/-- Python `any(pat in line.lower() for line in s.split("\n"))`. -/
def anyLineContains (s pat : String) : Bool :=
  (splitOnNL s.data).any (fun line => containsSub (lowerL line) pat.data)

/-- Python `max(stage_breakdown, key=lambda x: x["duration_ms"])` on a
non-empty list: keeps the earliest entry on ties. -/
def longestStage (h : StageBreakdownEntry) (t : List StageBreakdownEntry) :
    StageBreakdownEntry :=
  t.foldl (fun best x => if x.duration_ms > best.duration_ms then x else best) h

/-- The timeout suggestion (rule 1). -/
def suggestion_timeout : Suggestion :=
  { type := "reliability", priority := "high",
    title := "Add timeout controls",
    description := "Add timeouts to prevent hanging builds",
    example' := "timeout(time: 30, unit: \x27MINUTES\x27) \x7b /* stage content */ \x7d" }

/-- The retry suggestion (rule 2). -/
def suggestion_retry : Suggestion :=
  { type := "reliability", priority := "medium",
    title := "Add retry logic",
    description := "Add retry mechanisms for transient failures",
    example' := "retry(3) \x7b /* critical operations */ \x7d" }

/-- The conditional-execution suggestion (rule 3). -/
def suggestion_when : Suggestion :=
  { type := "efficiency", priority := "low",
    title := "Add conditional execution",
    description := "Use \x27when\x27 conditions to skip unnecessary stages",
    example' := "when \x7b not \x7b params.dry_run \x7d \x7d" }

/-- The credential-handling suggestion (rule 4). -/
def suggestion_credentials : Suggestion :=
  { type := "security", priority := "high",
    title := "Secure credential handling",
    description := "Use withCredentials for sensitive data",
    example' := "withCredentials([string(credentialsId: \x27my-secret\x27, variable: \x27SECRET\x27)]) \x7b /* use $SECRET */ \x7d" }

/-- The performance suggestion for the longest stage (rule 5). -/
def suggestion_performance (longest_stage : StageBreakdownEntry) : Suggestion :=
  { type := "performance", priority := "medium",
    title := "Optimize " ++ longest_stage.name ++ " stage",
    description := "This stage takes " ++ longest_stage.duration_formatted
      ++ " (" ++ fmt1 longest_stage.percentage ++ "% of total time)",
    example' := "Consider breaking into smaller steps or using parallel execution" }

/-- The improvement-suggestion generator (`suggest_improvements`), with the
source's sequence of conditional appends. -/
def suggest_improvements (pipeline_name jenkinsfile : String)
    (analysis : Analysis) : SuggestResult :=
  let suggestions : List Suggestion := []
  let suggestions :=
    if !(anyLineContains jenkinsfile ("timeout")) then suggestions ++ [suggestion_timeout]
    else suggestions
  let suggestions :=
    if !(anyLineContains jenkinsfile ("retry")) then suggestions ++ [suggestion_retry]
    else suggestions
  let suggestions :=
    if !(anyLineContains jenkinsfile ("when")) then suggestions ++ [suggestion_when]
    else suggestions
  let suggestions :=
    if !(containsS jenkinsfile ("withCredentials")) then suggestions ++ [suggestion_credentials]
    else suggestions
  let suggestions :=
    match analysis.stage_breakdown with
    | [] => suggestions
    | h :: t =>
      let longest_stage := longestStage h t
      if longest_stage.duration_ms > 60000 then
        suggestions ++ [suggestion_performance longest_stage]
      else suggestions
  { pipeline_name := pipeline_name,
    total_suggestions := suggestions.length,
    suggestions := suggestions,
    analysis_summary :=
      { technologies := analysis.technologies_used,
        total_duration := analysis.total_duration_formatted,
        stage_count := analysis.total_stages } }

/-- Split a text at every occurrence of a non-empty `pat`, left to right
(Python `s.split(pat)`). -/
def splitOnPat (pat : List Char) : Nat → List Char → List (List Char)
  | 0, l => [l]
  | fuel + 1, l =>
    match cutAtL pat l with
    | none => [l]
    | some (a, b) => a :: splitOnPat pat fuel b

/-- Python `s.replace(pat, "")`: delete every occurrence of `pat`, scanning
left to right. -/
def deleteOccurrences (pat s : String) : String :=
  strOf ((splitOnPat pat.data (s.data.length + 1) s.data).flatten)

/-- The five technology flags of an analysis, bundled
(AWS, Kubernetes, Docker, Helm, shared library). -/
def techFlags (a : Analysis) : Bool × Bool × Bool × Bool × Bool :=
  (a.aws_integration, a.kubernetes_integration, a.docker_usage,
   a.helm_usage, a.jenkins_library_usage)

/-- One entry of the `get_builds` response (only `number` is read on this
path). -/
structure Build where
  number : Nat
deriving DecidableEq

/-- One `get_build_info` response (only `number` and `result` are read on
this path). -/
structure BuildInfo where
  number : Nat
  result : String
deriving DecidableEq

/-- The CI-server collaborator as seen by `reconstruct_jenkinsfile`: a record
of response functions.  A `none` response models a raised exception or a
non-200 HTTP status (both are handled identically by the source). -/
structure JenkinsClient where
  getBuilds : String → Nat → List Build
  getBuildInfo : String → Nat → Option BuildInfo
  getExecutionData : String → Nat → Option ExecutionData
  getConfigXml : String → Option String

/-- External calls performed by `reconstruct_jenkinsfile`, logged in order. -/
inductive Effect where
  | getBuilds (pipeline_name : String) (limit : Nat)
  | getBuildInfo (pipeline_name : String) (number : Nat)
  | getExecutionData (pipeline_name : String) (number : Nat)
  | getConfig (pipeline_name : String)
  | parseConfig
deriving DecidableEq

/-- The success payload of `reconstruct_jenkinsfile`. -/
structure ReconstructionPayload where
  pipeline_name : String
  build_analyzed : Nat
  reconstructed_jenkinsfile : String
  analysis : Analysis
  reconstruction_method : String
  timestamp : String
deriving DecidableEq

/-- Result of `reconstruct_jenkinsfile`: either an `{"error": ...}` payload
or the success payload. -/
inductive ReconResult where
  | error (msg : String)
  | ok (payload : ReconstructionPayload)
deriving DecidableEq

/-- The orchestration of `reconstruct_jenkinsfile` (after the
initialization guard), returning the result together with the log of
external calls.  `now` models `datetime.now().isoformat()`. -/
def reconstruct_jenkinsfile (jenkins : JenkinsClient) (pipeline_name : String)
    (now : String) : ReconResult × List Effect :=
  let builds := jenkins.getBuilds pipeline_name 10
  let effects := Effect.getBuilds pipeline_name 10
    :: builds.map (fun b => Effect.getBuildInfo pipeline_name b.number)
  let successful_builds :=
    (builds.filterMap (fun b => jenkins.getBuildInfo pipeline_name b.number)).filter
      (fun bi => bi.result == "SUCCESS")
  match successful_builds with
  | [] => (ReconResult.error ("No successful builds found for analysis"), effects)
  | latest_build :: _ =>
    let build_number := latest_build.number
    let effects := effects ++ [Effect.getExecutionData pipeline_name build_number]
    match jenkins.getExecutionData pipeline_name build_number with
    | none => (ReconResult.error ("Could not retrieve execution data"), effects)
    | some execution_data =>
      let effects := effects ++ [Effect.getConfig pipeline_name]
      let cfgEff : PipelineConfig × List Effect :=
        match jenkins.getConfigXml pipeline_name with
        | some config_xml => (parse_config_xml config_xml, effects ++ [Effect.parseConfig])
        | none => ({}, effects)
      let jenkinsfile_content := reconstruct_from_execution execution_data cfgEff.1
      let analysis := analyze_pipeline_structure execution_data
      (ReconResult.ok
        { pipeline_name := pipeline_name,
          build_analyzed := build_number,
          reconstructed_jenkinsfile := jenkinsfile_content,
          analysis := analysis,
          reconstruction_method := "execution_flow_analysis",
          timestamp := now }, cfgEff.2)

/-- A concrete client whose ten fetched builds contain no successful one
(one per-build info fetch fails and is skipped, one reports FAILURE). -/
def witness_client : JenkinsClient :=
  { getBuilds := fun _ _ => [⟨1⟩, ⟨2⟩],
    getBuildInfo := fun _ n => if n = 1 then some ⟨1, "FAILURE"⟩ else none,
    getExecutionData := fun _ _ => some ⟨[], 0⟩,
    getConfigXml := fun _ => some "" }

/-- A parameters region whose document order is choice-then-string. -/
def choice_then_string_doc : String :=
  "<hudson.model.ChoiceParameterDefinition><name>C</name><choices class=\"java.util.Arrays$ArrayList\"><a class=\"string-array\"><string>x</string><string>y</string></a></choices><description>d1</description></hudson.model.ChoiceParameterDefinition><hudson.model.StringParameterDefinition><name>S</name><defaultValue>v</defaultValue><description>d2</description></hudson.model.StringParameterDefinition>"

/-- A parameters region with two string parameters in document order. -/
def two_string_doc : String :=
  "<hudson.model.StringParameterDefinition><name>S1</name><defaultValue>v1</defaultValue><description>d1</description></hudson.model.StringParameterDefinition><hudson.model.StringParameterDefinition><name>S2</name><defaultValue>v2</defaultValue><description>d2</description></hudson.model.StringParameterDefinition>"

/-- A trace with a Docker stage and a plain stage. -/
def trace_docker : ExecutionData := ⟨[⟨"Docker build", 1⟩, ⟨"Test", 2⟩], 3⟩

/-- `trace_docker` with its stages permuted and one duplicated (the same
stage-name set). -/
def trace_docker_permuted : ExecutionData :=
  ⟨[⟨"Test", 2⟩, ⟨"Docker build", 1⟩, ⟨"Docker build", 1⟩], 7⟩

section Lemmas

/-- The analyzer fold in closed form: the breakdown entries are mapped in
order and each technology flag is the OR of its per-stage detections. -/
theorem foldl_analyzeStep (total_duration : Nat) (stages : List Stage) (a : Analysis) :
    stages.foldl (analyzeStep total_duration) a =
      { a with
        stage_breakdown := a.stage_breakdown ++ stages.map (breakdownEntry total_duration),
        aws_integration := a.aws_integration || stages.any (fun s => awsP s.name),
        kubernetes_integration := a.kubernetes_integration || stages.any (fun s => k8sP s.name),
        docker_usage := a.docker_usage || stages.any (fun s => dockerP s.name),
        helm_usage := a.helm_usage || stages.any (fun s => helmP s.name),
        jenkins_library_usage := a.jenkins_library_usage
          || stages.any (fun s => libraryP s.name) } := by
  induction stages generalizing a with
  | nil => simp
  | cons x xs ih =>
    rw [List.foldl_cons, ih]
    simp [analyzeStep, Bool.or_assoc]

/-- The stage breakdown of an analysis, in closed form. -/
theorem analyze_stage_breakdown (e : ExecutionData) :
    (analyze_pipeline_structure e).stage_breakdown =
      e.stages.map (breakdownEntry e.durationMillis) := by
  simp [analyze_pipeline_structure, foldl_analyzeStep]

/-- The total duration reported by an analysis. -/
theorem analyze_total_duration (e : ExecutionData) :
    (analyze_pipeline_structure e).total_duration_ms = e.durationMillis := by
  simp [analyze_pipeline_structure, foldl_analyzeStep]

/-- The Docker flag of an analysis, in closed form. -/
theorem analyze_docker_usage (e : ExecutionData) :
    (analyze_pipeline_structure e).docker_usage
      = e.stages.any (fun s => dockerP s.name) := by
  simp [analyze_pipeline_structure, foldl_analyzeStep]

/-- The AWS flag of an analysis, in closed form. -/
theorem analyze_aws (e : ExecutionData) :
    (analyze_pipeline_structure e).aws_integration
      = e.stages.any (fun s => awsP s.name) := by
  simp [analyze_pipeline_structure, foldl_analyzeStep]

/-- The Kubernetes flag of an analysis, in closed form. -/
theorem analyze_k8s (e : ExecutionData) :
    (analyze_pipeline_structure e).kubernetes_integration
      = e.stages.any (fun s => k8sP s.name) := by
  simp [analyze_pipeline_structure, foldl_analyzeStep]

/-- The Helm flag of an analysis, in closed form. -/
theorem analyze_helm (e : ExecutionData) :
    (analyze_pipeline_structure e).helm_usage
      = e.stages.any (fun s => helmP s.name) := by
  simp [analyze_pipeline_structure, foldl_analyzeStep]

/-- The shared-library flag of an analysis, in closed form. -/
theorem analyze_library (e : ExecutionData) :
    (analyze_pipeline_structure e).jenkins_library_usage
      = e.stages.any (fun s => libraryP s.name) := by
  simp [analyze_pipeline_structure, foldl_analyzeStep]

/-- Sum of the percentages of the breakdown entries when the total is
positive. -/
theorem sum_breakdown_percentage (l : List Stage) (T : Nat) (h : 0 < T) :
    ((l.map (breakdownEntry T)).map (fun b => b.percentage)).sum
      = ((((l.map (fun s => s.durationMillis)).sum : Nat) : ℚ)) / (T : ℚ) * 100 := by
  induction l with
  | nil => simp
  | cons x xs ih =>
    simp only [List.map_cons, List.sum_cons, ih, breakdownEntry, if_pos h]
    push_cast
    ring

/-- `List.any` over a mapped list. -/
theorem any_map_general {α β : Type} (f : α → β) (p : β → Bool) (l : List α) :
    (l.map f).any p = l.any (fun a => p (f a)) := by
  induction l with
  | nil => rfl
  | cons x xs ih => simp [List.any_cons, ih]

/-- `List.any` is invariant under membership-preserving changes. -/
theorem any_congr {α : Type} (p : α → Bool) {l l' : List α}
    (h : ∀ x, x ∈ l ↔ x ∈ l') : l.any p = l'.any p := by
  by_cases hl : l.any p = true
  · obtain ⟨x, hx, hp⟩ := List.any_eq_true.mp hl
    rw [hl]
    exact (List.any_eq_true.mpr ⟨x, (h x).mp hx, hp⟩).symm
  · have hl' : ¬ l'.any p = true := fun hc => by
      obtain ⟨x, hx, hp⟩ := List.any_eq_true.mp hc
      exact hl (List.any_eq_true.mpr ⟨x, (h x).mpr hx, hp⟩)
    rw [Bool.not_eq_true] at hl hl'
    rw [hl, hl']

/-- A Boolean prefix of a concatenation is witnessed by its left part. -/
theorem isPrefixL_append (p q l : List Char) (h : isPrefixL (p ++ q) l = true) :
    isPrefixL p l = true := by
  induction p generalizing l with
  | nil => rfl
  | cons c cs ih =>
    cases l with
    | nil => simp [isPrefixL] at h
    | cons d ds =>
      simp only [List.cons_append, isPrefixL, Bool.and_eq_true] at h ⊢
      exact ⟨h.1, ih ds h.2⟩

/-- Containment of a concatenated pattern implies containment of its left
part. -/
theorem containsSub_append (l p q : List Char)
    (h : containsSub l (p ++ q) = true) : containsSub l p = true := by
  induction l with
  | nil =>
    simp only [containsSub, List.isEmpty_eq_true, List.append_eq_nil] at h ⊢
    exact h.1
  | cons c rest ih =>
    simp only [containsSub, Bool.or_eq_true] at h ⊢
    rcases h with h | h
    · exact Or.inl (isPrefixL_append p q _ h)
    · exact Or.inr (ih h)

/-- A name containing `notify` contains `not`. -/
theorem containsS_not_of_notify (s : String)
    (h : containsS s ("notify") = true) : containsS s ("not") = true :=
  containsSub_append s.data ("not".data) ("ify".data) h

/-- The suggestion list in closed form: the five rules in order, each
contributing at most one entry. -/
theorem suggestions_eq (pipeline_name jenkinsfile : String) (analysis : Analysis) :
    (suggest_improvements pipeline_name jenkinsfile analysis).suggestions =
      (if anyLineContains jenkinsfile ("timeout") then [] else [suggestion_timeout])
      ++ (if anyLineContains jenkinsfile ("retry") then [] else [suggestion_retry])
      ++ (if anyLineContains jenkinsfile ("when") then [] else [suggestion_when])
      ++ (if containsS jenkinsfile ("withCredentials") then [] else [suggestion_credentials])
      ++ (match analysis.stage_breakdown with
          | [] => []
          | h :: t =>
            if (longestStage h t).duration_ms > 60000
            then [suggestion_performance (longestStage h t)] else []) := by
  simp only [suggest_improvements]
  rcases analysis.stage_breakdown with _ | ⟨h, t⟩ <;>
    cases anyLineContains jenkinsfile ("timeout") <;>
    cases anyLineContains jenkinsfile ("retry") <;>
    cases anyLineContains jenkinsfile ("when") <;>
    cases containsS jenkinsfile ("withCredentials") <;>
    simp <;> split <;> simp

/-- A line of a rendered stage block is a line of the whole reconstruction. -/
theorem mem_reconstruct_of_mem_block (e : ExecutionData) (cfg : PipelineConfig)
    (st : Stage) (l : String) (hst : st ∈ e.stages)
    (hl : l ∈ reconstruct_stage_block st) :
    l ∈ reconstruct_from_execution_lines e cfg := by
  have hmem : l ∈ (e.stages.map (fun s => reconstruct_stage_block s ++ [""])).flatten :=
    List.mem_flatten.mpr ⟨reconstruct_stage_block st ++ [""],
      List.mem_map_of_mem _ hst, List.mem_append_left _ hl⟩
  simp only [reconstruct_from_execution_lines, List.mem_append]
  tauto

/-- When some stage name matches the cleanup/notify detector, the rendered
document contains the `post` block opener. -/
theorem post_mem_reconstruct (e : ExecutionData) (cfg : PipelineConfig)
    (hpost : e.stages.any (fun st =>
      containsS (lowerS st.name) ("cleanup")
        || containsS (lowerS st.name) ("notify")) = true) :
    "    post \x7b" ∈ reconstruct_from_execution_lines e cfg := by
  simp only [reconstruct_from_execution_lines, extract_post_actions, hpost,
    if_true, List.mem_append]
  simp

end Lemmas

/-- C1 (counterexample): the claim "percentages sum to 100 whenever the
breakdown is non-empty and the total is positive" fails on the trace with
one 10ms stage and a 100ms total (orchestration overhead): the breakdown is
non-empty, the total is positive, yet the percentages sum to 10. -/
theorem C1_percentage_sum_counterexample :
    (analyze_pipeline_structure ⟨[⟨"A", 10⟩], 100⟩).stage_breakdown ≠ []
    ∧ 0 < (analyze_pipeline_structure ⟨[⟨"A", 10⟩], 100⟩).total_duration_ms
    ∧ pctSum (analyze_pipeline_structure ⟨[⟨"A", 10⟩], 100⟩) ≠ 100 := by
  refine ⟨?_, ?_, ?_⟩
  · rw [analyze_stage_breakdown]
    simp
  · rw [analyze_total_duration]
    norm_num
  · rw [pctSum, analyze_stage_breakdown, sum_breakdown_percentage _ _ (by norm_num)]
    norm_num

/-- C1 (amended): the percentages of the stage breakdown sum to
`100 * (sum of stage durations) / total_duration_ms` whenever
`total_duration_ms > 0` (so they sum to 100 exactly when the stage durations
sum to the total, which may instead include orchestration overhead), and when
`total_duration_ms == 0` every percentage is exactly 0. -/
theorem C1_percentage_sum_amended (e : ExecutionData) :
    (0 < e.durationMillis →
      pctSum (analyze_pipeline_structure e)
        = ((sumDur e : ℚ)) / ((e.durationMillis : ℚ)) * 100)
    ∧ (e.durationMillis = 0 →
      ((analyze_pipeline_structure e).stage_breakdown.all
        (fun b => b.percentage == 0)) = true) := by
  constructor
  · intro h
    rw [pctSum, analyze_stage_breakdown, sum_breakdown_percentage _ _ h, sumDur]
  · intro h
    rw [analyze_stage_breakdown, h]
    simp [List.all_eq_true, breakdownEntry]

/-- C1 (witness): the amended statement evaluated on a positive-total trace
(10ms stage, 50ms total: the sum is 20 percent) and on a zero-total trace. -/
theorem C1_percentage_sum_witness :
    pctSum (analyze_pipeline_structure ⟨[⟨"A", 10⟩], 50⟩)
      = ((sumDur ⟨[⟨"A", 10⟩], 50⟩ : ℚ)) / (((50 : Nat) : ℚ)) * 100
    ∧ ((analyze_pipeline_structure ⟨[⟨"A", 10⟩], 0⟩).stage_breakdown.all
        (fun b => b.percentage == 0)) = true :=
  ⟨(C1_percentage_sum_amended ⟨[⟨"A", 10⟩], 50⟩).1 (by norm_num),
   (C1_percentage_sum_amended ⟨[⟨"A", 10⟩], 0⟩).2 rfl⟩

/-- C5: `suggest_improvements` evaluates exactly the five rules in the fixed
order timeout, retry, when, withCredentials, slowest stage; each contributes
at most one suggestion and the output preserves that order; the fifth rule
fires exactly when the breakdown is non-empty and the first maximal-duration
stage exceeds 60000ms, and `suggestion_performance` names that stage and its
percentage share. -/
theorem C5_suggestion_rules (pipeline_name jenkinsfile : String) (analysis : Analysis) :
    (suggest_improvements pipeline_name jenkinsfile analysis).suggestions =
      (if anyLineContains jenkinsfile ("timeout") then [] else [suggestion_timeout])
      ++ (if anyLineContains jenkinsfile ("retry") then [] else [suggestion_retry])
      ++ (if anyLineContains jenkinsfile ("when") then [] else [suggestion_when])
      ++ (if containsS jenkinsfile ("withCredentials") then [] else [suggestion_credentials])
      ++ (match analysis.stage_breakdown with
          | [] => []
          | h :: t =>
            if (longestStage h t).duration_ms > 60000
            then [suggestion_performance (longestStage h t)] else []) :=
  suggestions_eq pipeline_name jenkinsfile analysis

/-- C9: the reported `total_suggestions` equals the length of the suggestion
list, and both are at most 5. -/
theorem C9_suggestion_count (pipeline_name jenkinsfile : String) (analysis : Analysis) :
    (suggest_improvements pipeline_name jenkinsfile analysis).total_suggestions
      = (suggest_improvements pipeline_name jenkinsfile analysis).suggestions.length
    ∧ (suggest_improvements pipeline_name jenkinsfile analysis).total_suggestions ≤ 5 := by
  refine ⟨rfl, ?_⟩
  have h : (suggest_improvements pipeline_name jenkinsfile analysis).total_suggestions
      = (suggest_improvements pipeline_name jenkinsfile analysis).suggestions.length := rfl
  rw [h, suggestions_eq]
  rcases analysis.stage_breakdown with _ | ⟨hd, tl⟩ <;>
    cases anyLineContains jenkinsfile ("timeout") <;>
    cases anyLineContains jenkinsfile ("retry") <;>
    cases anyLineContains jenkinsfile ("when") <;>
    cases containsS jenkinsfile ("withCredentials") <;>
    simp <;> split <;> simp

/-- C7 (counterexample): on the definition text `retimeouttry` (which
contains `timeout`), deleting every occurrence of `timeout` yields `retry`;
this adds the timeout suggestion but also removes the retry suggestion, so
the other rules' presence is not unchanged. -/
theorem C7_timeout_independence_counterexample :
    anyLineContains ("retimeouttry") ("timeout") = true
    ∧ deleteOccurrences ("timeout") ("retimeouttry") = "retry"
    ∧ suggestion_timeout ∉ (suggest_improvements ("p") ("retimeouttry")
        (analyze_pipeline_structure ⟨[], 0⟩)).suggestions
    ∧ suggestion_timeout ∈ (suggest_improvements ("p")
        (deleteOccurrences ("timeout") ("retimeouttry"))
        (analyze_pipeline_structure ⟨[], 0⟩)).suggestions
    ∧ suggestion_retry ∈ (suggest_improvements ("p") ("retimeouttry")
        (analyze_pipeline_structure ⟨[], 0⟩)).suggestions
    ∧ suggestion_retry ∉ (suggest_improvements ("p")
        (deleteOccurrences ("timeout") ("retimeouttry"))
        (analyze_pipeline_structure ⟨[], 0⟩)).suggestions := by
  decide

/-- C7 (amended): if a definition text `t` contains `timeout`, and `t2` is a
modification of it that no longer contains `timeout` while preserving the
per-line case-insensitive presence of `retry` and `when` and the literal
presence of `withCredentials`, then the suggestions for `t2` are exactly the
timeout suggestion prepended to the suggestions for `t`. -/
theorem C7_timeout_independence_amended (pipeline_name t t2 : String)
    (analysis : Analysis)
    (h1 : anyLineContains t ("timeout") = true)
    (h2 : anyLineContains t2 ("timeout") = false)
    (h3 : anyLineContains t2 ("retry") = anyLineContains t ("retry"))
    (h4 : anyLineContains t2 ("when") = anyLineContains t ("when"))
    (h5 : containsS t2 ("withCredentials") = containsS t ("withCredentials")) :
    (suggest_improvements pipeline_name t2 analysis).suggestions =
      suggestion_timeout
        :: (suggest_improvements pipeline_name t analysis).suggestions := by
  rw [suggestions_eq, suggestions_eq, h1, h2, h3, h4, h5]
  simp

/-- C7 (witness): the amended statement on `t = "timeout"` and
`t2 = deleteOccurrences "timeout" t = ""`. -/
theorem C7_timeout_independence_witness :
    (suggest_improvements ("p") (deleteOccurrences ("timeout") ("timeout"))
        (analyze_pipeline_structure ⟨[], 0⟩)).suggestions =
      suggestion_timeout :: (suggest_improvements ("p") ("timeout")
        (analyze_pipeline_structure ⟨[], 0⟩)).suggestions :=
  C7_timeout_independence_amended ("p") ("timeout")
    (deleteOccurrences ("timeout") ("timeout")) _
    (by decide) (by decide) (by decide) (by decide) (by decide)

/-- C2 (counterexample): the trace of Scenario B, whose only stage is named
`Deploy to Production (parallel)`, is not rendered as a `parallel` block with
two branches: the classifier routes any name containing `parallel` to the
matrix branch, so the output has no `parallel` opener and no `branch1`
branch, but does contain a `matrix` opener. -/
theorem C2_parallel_stage_counterexample :
    "            parallel \x7b"
      ∉ reconstruct_from_execution_lines ⟨[⟨"Deploy to Production (parallel)", 1000⟩], 1000⟩ {}
    ∧ "                branch1 \x7b"
      ∉ reconstruct_from_execution_lines ⟨[⟨"Deploy to Production (parallel)", 1000⟩], 1000⟩ {}
    ∧ "            matrix \x7b"
      ∈ reconstruct_from_execution_lines ⟨[⟨"Deploy to Production (parallel)", 1000⟩], 1000⟩ {} := by
  decide

/-- C2 (amended): every stage whose name contains `parallel`
(case-insensitively) is classified as a matrix stage and rendered as the
illustrative `matrix` block (axes, excludes, Build/Test stages), and the
document of any trace containing such a stage contains the `matrix` opener. -/
theorem C2_parallel_stage_amended (e : ExecutionData) (cfg : PipelineConfig)
    (st : Stage) (hst : st ∈ e.stages)
    (hpar : containsS (lowerS st.name) ("parallel") = true) :
    reconstruct_stage_block st =
      ["        stage(\x27" ++ st.name ++ "\x27) \x7b"]
        ++ reconstruct_matrix_stage st ++ ["        \x7d"]
    ∧ "            matrix \x7b" ∈ reconstruct_from_execution_lines e cfg := by
  have hm : is_matrix_stage st = true := by
    simp [is_matrix_stage, hpar]
  have hblock : reconstruct_stage_block st =
      ["        stage(\x27" ++ st.name ++ "\x27) \x7b"]
        ++ reconstruct_matrix_stage st ++ ["        \x7d"] := by
    simp [reconstruct_stage_block, hm]
  refine ⟨hblock, ?_⟩
  apply mem_reconstruct_of_mem_block e cfg st _ hst
  rw [hblock]
  simp [reconstruct_matrix_stage]

/-- C2 (witness): the amended statement on the Scenario B trace. -/
theorem C2_parallel_stage_witness :
    reconstruct_stage_block ⟨"Deploy to Production (parallel)", 1000⟩ =
      ["        stage(\x27" ++ "Deploy to Production (parallel)" ++ "\x27) \x7b"]
        ++ reconstruct_matrix_stage ⟨"Deploy to Production (parallel)", 1000⟩
        ++ ["        \x7d"]
    ∧ "            matrix \x7b"
      ∈ reconstruct_from_execution_lines ⟨[⟨"Deploy to Production (parallel)", 1000⟩], 1000⟩ {} :=
  C2_parallel_stage_amended ⟨[⟨"Deploy to Production (parallel)", 1000⟩], 1000⟩ {}
    ⟨"Deploy to Production (parallel)", 1000⟩ (by decide) (by decide)

/-- C10 (counterexample): a stage named `Branch Notify` contains `notify`,
but the `when` heuristic tests `branch` first, so the rendered document
carries `branch 'main'` and not the claimed `not { branch 'develop' }`. -/
theorem C10_notify_when_counterexample :
    containsS (lowerS ("Branch Notify")) ("notify") = true
    ∧ "                not \x7b branch \x27develop\x27 \x7d"
      ∉ reconstruct_from_execution_lines ⟨[⟨"Branch Notify", 1000⟩], 1000⟩ {}
    ∧ "                branch \x27main\x27"
      ∈ reconstruct_from_execution_lines ⟨[⟨"Branch Notify", 1000⟩], 1000⟩ {} := by
  decide

/-- C10 (amended): for a stage whose name contains `notify` but neither
`branch` nor `environment` (so the `not` test is the first to fire, because
`notify` contains `not`) nor `matrix`/`parallel` (so the stage is rendered as
an ordinary stage), the document contains the
`when { not { branch 'develop' } }` condition line, and — for any trace
containing a `notify` stage — the pipeline-level `post` block opener. -/
theorem C10_notify_when_amended (e : ExecutionData) (cfg : PipelineConfig)
    (st : Stage) (hst : st ∈ e.stages)
    (hnotify : containsS (lowerS st.name) ("notify") = true)
    (hbranch : containsS (lowerS st.name) ("branch") = false)
    (henv : containsS (lowerS st.name) ("environment") = false)
    (hmatrix : containsS (lowerS st.name) ("matrix") = false)
    (hparallel : containsS (lowerS st.name) ("parallel") = false) :
    "                not \x7b branch \x27develop\x27 \x7d"
      ∈ reconstruct_from_execution_lines e cfg
    ∧ "    post \x7b" ∈ reconstruct_from_execution_lines e cfg := by
  have hnot : containsS (lowerS st.name) ("not") = true :=
    containsS_not_of_notify _ hnotify
  have hwhen : extract_when_condition st
      = some ("not \x7b branch \x27develop\x27 \x7d") := by
    simp [extract_when_condition, hbranch, henv, hnot]
  have hm : is_matrix_stage st = false := by
    simp [is_matrix_stage, hmatrix, hparallel]
  constructor
  · apply mem_reconstruct_of_mem_block e cfg st _ hst
    simp only [reconstruct_stage_block, hm, Bool.false_eq_true, if_false,
      reconstruct_stage_content, extract_stage_agent, extract_stage_environment,
      extract_stage_tools, extract_stage_post_actions, hwhen, List.mem_append,
      List.mem_cons]
    have heq : ("                not \x7b branch \x27develop\x27 \x7d" : String)
        = "                " ++ "not \x7b branch \x27develop\x27 \x7d" := by decide
    tauto
  · apply post_mem_reconstruct
    exact List.any_eq_true.mpr ⟨st, hst, by simp [hnotify]⟩

/-- C10 (witness): the amended statement on a trace with the stage
`Notify Team`. -/
theorem C10_notify_when_witness :
    "                not \x7b branch \x27develop\x27 \x7d"
      ∈ reconstruct_from_execution_lines ⟨[⟨"Notify Team", 1000⟩], 1000⟩ {}
    ∧ "    post \x7b" ∈ reconstruct_from_execution_lines ⟨[⟨"Notify Team", 1000⟩], 1000⟩ {} :=
  C10_notify_when_amended ⟨[⟨"Notify Team", 1000⟩], 1000⟩ {} ⟨"Notify Team", 1000⟩
    (by decide) (by decide) (by decide) (by decide) (by decide) (by decide)

/-- C3: the config parser is total by construction (it always returns a
`PipelineConfig` record whose list fields are lists), each sub-section falls
back to its default (`"any"` agent / empty list) exactly when its own tag
region is absent or unrecognized, and each sub-section is a function of its
own tag region only — so malformed content in one region (a sub-section
parse failure) leaves every other section parsed as before. -/
theorem C3_parser_totality (s t : String) :
    ((agentRegion s = none → (parse_config_xml s).agent = "any")
     ∧ (parametersRegion s = none → (parse_config_xml s).parameters = [])
     ∧ (triggersRegion s = none → (parse_config_xml s).triggers = [])
     ∧ (optionsRegion s = none → (parse_config_xml s).options = [])
     ∧ (toolsRegion s = none → (parse_config_xml s).tools = [])
     ∧ (envVarsRegion s = none → (parse_config_xml s).environment = []))
    ∧ ((agentRegion s = agentRegion t →
          (parse_config_xml s).agent = (parse_config_xml t).agent)
       ∧ (parametersRegion s = parametersRegion t →
          (parse_config_xml s).parameters = (parse_config_xml t).parameters)
       ∧ (triggersRegion s = triggersRegion t →
          (parse_config_xml s).triggers = (parse_config_xml t).triggers)
       ∧ (optionsRegion s = optionsRegion t →
          (parse_config_xml s).options = (parse_config_xml t).options)
       ∧ (toolsRegion s = toolsRegion t →
          (parse_config_xml s).tools = (parse_config_xml t).tools)
       ∧ (envVarsRegion s = envVarsRegion t →
          (parse_config_xml s).environment = (parse_config_xml t).environment)) := by
  constructor
  · refine ⟨fun h => ?_, fun h => ?_, fun h => ?_, fun h => ?_, fun h => ?_, fun h => ?_⟩ <;>
      simp [parse_config_xml, h]
  · refine ⟨fun h => ?_, fun h => ?_, fun h => ?_, fun h => ?_, fun h => ?_, fun h => ?_⟩ <;>
      simp only [parse_config_xml] <;> rw [h]

/-- C3 (witness): the empty document and a garbage document parse to the
all-default record, and a document whose parameters region is garbage still
parses a well-formed triggers region elsewhere in the document exactly as a
document without that garbage does. -/
theorem C3_parser_totality_witness :
    (parse_config_xml ("<<<not xml % at all")).agent = "any"
    ∧ (parse_config_xml ("")).parameters = []
    ∧ (parse_config_xml
        ("<parameters>&&garbage</parameters><triggers>GitHubPushTrigger</triggers>")).triggers
      = (parse_config_xml ("<triggers>GitHubPushTrigger</triggers>")).triggers :=
  ⟨(C3_parser_totality ("<<<not xml % at all") ("")).1.1 (by decide),
   (C3_parser_totality ("") ("")).1.2.1 (by decide),
   (C3_parser_totality
      ("<parameters>&&garbage</parameters><triggers>GitHubPushTrigger</triggers>")
      ("<triggers>GitHubPushTrigger</triggers>")).2.2.2.1 (by decide)⟩

/-- C4: when none of the fetched build infos reports SUCCESS,
`reconstruct_jenkinsfile` returns exactly the
`{"error": "No successful builds found for analysis"}` payload, and its
effect log is exactly the builds fetch followed by the per-build info
fetches — no execution-data retrieval, no config retrieval, no config
parsing. -/
theorem C4_no_successful_builds (jenkins : JenkinsClient)
    (pipeline_name now : String)
    (h : ∀ bi ∈ (jenkins.getBuilds pipeline_name 10).filterMap
        (fun b => jenkins.getBuildInfo pipeline_name b.number),
      bi.result ≠ "SUCCESS") :
    reconstruct_jenkinsfile jenkins pipeline_name now =
      (ReconResult.error ("No successful builds found for analysis"),
       Effect.getBuilds pipeline_name 10
         :: (jenkins.getBuilds pipeline_name 10).map
              (fun b => Effect.getBuildInfo pipeline_name b.number)) := by
  have hnil : ((jenkins.getBuilds pipeline_name 10).filterMap
      (fun b => jenkins.getBuildInfo pipeline_name b.number)).filter
        (fun bi => bi.result == "SUCCESS") = [] := by
    rw [List.filter_eq_nil_iff]
    intro a ha
    simpa using h a ha
  simp only [reconstruct_jenkinsfile, hnil]

/-- C4 (witness): the statement on a concrete client with two recent builds,
one whose detail fetch fails (skipped) and one reporting FAILURE. -/
theorem C4_no_successful_builds_witness :
    reconstruct_jenkinsfile witness_client ("pipe") ("t0") =
      (ReconResult.error ("No successful builds found for analysis"),
       [Effect.getBuilds ("pipe") 10, Effect.getBuildInfo ("pipe") 1,
        Effect.getBuildInfo ("pipe") 2]) :=
  C4_no_successful_builds witness_client ("pipe") ("t0") (by decide)

/-- C6: each of the five technology flags is the OR over the stages of a
case-insensitive keyword match on the stage name; the flag tuple is a pure,
order-independent function of the stage-name set (invariant under
permutation and duplication); appending a stage whose name contains `docker`
always yields a set Docker flag; and appending any stage never clears a set
Docker flag. -/
theorem C6_technology_flags (e e2 : ExecutionData) (st : Stage) (d : Nat) :
    ((analyze_pipeline_structure e).aws_integration
        = e.stages.any (fun s => awsP s.name)
     ∧ (analyze_pipeline_structure e).kubernetes_integration
        = e.stages.any (fun s => k8sP s.name)
     ∧ (analyze_pipeline_structure e).docker_usage
        = e.stages.any (fun s => dockerP s.name)
     ∧ (analyze_pipeline_structure e).helm_usage
        = e.stages.any (fun s => helmP s.name)
     ∧ (analyze_pipeline_structure e).jenkins_library_usage
        = e.stages.any (fun s => libraryP s.name))
    ∧ ((∀ n, n ∈ e.stages.map Stage.name ↔ n ∈ e2.stages.map Stage.name) →
        techFlags (analyze_pipeline_structure e)
          = techFlags (analyze_pipeline_structure e2))
    ∧ (containsS (lowerS st.name) ("docker") = true →
        (analyze_pipeline_structure ⟨e.stages ++ [st], d⟩).docker_usage = true)
    ∧ ((analyze_pipeline_structure e).docker_usage = true →
        (analyze_pipeline_structure ⟨e.stages ++ [st], d⟩).docker_usage = true) := by
  refine ⟨⟨analyze_aws e, analyze_k8s e, analyze_docker_usage e,
      analyze_helm e, analyze_library e⟩, ?_, ?_, ?_⟩
  · intro h
    have flags : ∀ p : String → Bool,
        e.stages.any (fun s => p s.name) = e2.stages.any (fun s => p s.name) := by
      intro p
      have h1 : (e.stages.map Stage.name).any p = (e2.stages.map Stage.name).any p :=
        any_congr p h
      rw [any_map_general, any_map_general] at h1
      exact h1
    simp only [techFlags, analyze_aws, analyze_k8s, analyze_docker_usage,
      analyze_helm, analyze_library, flags]
  · intro h
    rw [analyze_docker_usage]
    simp [dockerP, h]
  · intro h
    rw [analyze_docker_usage] at h ⊢
    simp only [List.any_append]
    rw [h]
    rfl

/-- C6 (witness): the flag tuple is unchanged by permuting and duplicating
the stages of a Docker trace; appending a `docker push` stage or any stage
keeps the Docker flag set. -/
theorem C6_technology_flags_witness :
    techFlags (analyze_pipeline_structure trace_docker)
      = techFlags (analyze_pipeline_structure trace_docker_permuted)
    ∧ (analyze_pipeline_structure
        ⟨trace_docker.stages ++ [⟨"docker push", 4⟩], 9⟩).docker_usage = true
    ∧ (analyze_pipeline_structure
        ⟨trace_docker.stages ++ [⟨"Lint", 4⟩], 9⟩).docker_usage = true :=
  ⟨(C6_technology_flags trace_docker trace_docker_permuted ⟨"Lint", 4⟩ 9).2.1
      (by intro n; simp [trace_docker, trace_docker_permuted]; tauto),
   (C6_technology_flags trace_docker trace_docker_permuted ⟨"docker push", 4⟩ 9).2.2.1
      (by decide),
   (C6_technology_flags trace_docker trace_docker_permuted ⟨"Lint", 4⟩ 9).2.2.2
      (by decide)⟩

set_option maxRecDepth 40000 in
/-- C8: the parameters list is the concatenation of the five per-kind
extractions in the fixed order string, choice, boolean, password, text, each
in document order within its kind; and cross-kind document order is not
preserved: a document listing a choice parameter before a string parameter
is extracted with the string parameter first (while two string parameters
keep their document order). -/
theorem C8_parameter_grouping :
    (∀ params_xml : String,
      extract_parameters_from_xml params_xml =
        extract_string_params params_xml
        ++ extract_choice_params params_xml
        ++ extract_boolean_params params_xml
        ++ extract_password_params params_xml
        ++ extract_text_params params_xml)
    ∧ extract_parameters_from_xml choice_then_string_doc =
        ["string(name: \x27S\x27, defaultValue: \x27v\x27, description: \x27d2\x27)",
         "choice(name: \x27C\x27, choices: [\x27x\x27, \x27y\x27], description: \x27d1\x27)"]
    ∧ extract_parameters_from_xml two_string_doc =
        ["string(name: \x27S1\x27, defaultValue: \x27v1\x27, description: \x27d1\x27)",
         "string(name: \x27S2\x27, defaultValue: \x27v2\x27, description: \x27d2\x27)"] :=
  ⟨fun _ => rfl, by decide, by decide⟩

end JenkinsRecon
